import Mathlib

/-!
Shallow embedding of the request pipeline of `src/request.ts` (jsorm).

The pipeline issues GET/POST/PATCH/DELETE requests, runs `beforeFetch` /
`afterFetch` middleware hooks, classifies the HTTP response, and either
decorates the response with its parsed JSON payload or throws a typed error
(`RequestError` before any network I/O, `ResponseError` after).

JavaScript effects are made explicit:
  * thrown errors become an `Except` result;
  * external collaborators (middleware stack, logger, transport) become a
    `FetchEnv` of pure functions;
  * observable side effects (logger calls, hook invocations, the transport
    call, the body read) are recorded in an event trace returned alongside
    the result;
  * the in-place mutation of the caller-supplied options object by the verb
    methods is modelled by returning the updated options record.
-/

/-- JavaScript JSON values, as produced by `JSON.parse`. Numbers are modelled
as integers (no claim exercises fractional values). -/
inductive JsonValue where
  | null : JsonValue
  | bool (b : Bool) : JsonValue
  | num (n : Int) : JsonValue
  | str (s : String) : JsonValue
  | arr (elems : List JsonValue) : JsonValue
  | obj (fields : List (String × JsonValue)) : JsonValue

/-- Escape a string for JSON serialization (quote and backslash, as
`JSON.stringify` does for these characters). -/
def jsonEscape (s : String) : String :=
  s.foldl
    (fun acc c =>
      if c = '"' then acc ++ "\\\""
      else if c = '\\' then acc ++ "\\\\"
      else acc.push c)
    ""

mutual

/-- Embedding of `JSON.stringify` on parsed JSON values, used by the
POST/PATCH verb methods to serialize the outgoing payload. -/
def JsonValue.stringify : JsonValue → String
  | .null => "null"
  | .bool true => "true"
  | .bool false => "false"
  | .num n => toString n
  | .str s => "\"" ++ jsonEscape s ++ "\""
  | .arr elems => "[" ++ JsonValue.stringifyList elems ++ "]"
  | .obj fields => "\x7b" ++ JsonValue.stringifyFields fields ++ "\x7d"

/-- Comma-separated serialization of a JSON array's elements. -/
def JsonValue.stringifyList : List JsonValue → String
  | [] => ""
  | [v] => v.stringify
  | v :: rest => v.stringify ++ "," ++ JsonValue.stringifyList rest

/-- Comma-separated serialization of a JSON object's fields. -/
def JsonValue.stringifyFields : List (String × JsonValue) → String
  | [] => ""
  | [(k, v)] => "\"" ++ jsonEscape k ++ "\":" ++ v.stringify
  | (k, v) :: rest =>
      "\"" ++ jsonEscape k ++ "\":" ++ v.stringify ++ "," ++
        JsonValue.stringifyFields rest

end

/-- Embedding of the JavaScript property access `json.data`:
`Except.error` models the `TypeError` thrown when `json` is `null`;
`.ok none` models the access evaluating to `undefined` (key absent, or a
primitive/array receiver); `.ok (some v)` models a present `data` field.
`JSON.parse` never produces `undefined`, so a present key is never
`undefined`. -/
def JsonValue.dataProp : JsonValue → Except String (Option JsonValue)
  | .null => .error "Cannot read properties of null (reading 'data')"
  | .obj fields => .ok (fields.lookup "data")
  | _ => .ok none

/-- An error value thrown by JavaScript code outside the pipeline
(a middleware hook or the transport); only its `message` is consumed. -/
structure JsError where
  message : String
deriving DecidableEq, Repr

/-- Embedding of the `RequestInit` options object handed to the verb
methods. `headers` and `credentials` stand for the fields the pipeline
never touches. -/
structure RequestInit where
  method : Option String := none
  body : Option String := none
  headers : List (String × String) := []
  credentials : Option String := none

/-- Embedding of the transport's `Response` object: `jsonBody` is the
outcome of the JSON-decoding body read `response.clone().json()` (an
`Except.error` models a rejected read), `text` the outcome of the raw-text
read `response.clone().text()`. -/
structure Response where
  status : Nat
  jsonBody : Except JsError JsonValue
  text : String := ""

/-- The two typed errors of `request.ts` (`RequestError`, `ResponseError`),
plus the native `TypeError` escaping from the expression
`json.data === undefined` when `json` is `null`. -/
inductive PipelineError where
  | requestError (message : String) (url : String) (options : RequestInit)
      (originalError : JsError)
  | responseError (response : Option Response) (message : String)
      (originalError : Option JsError)
  | nativeTypeError (message : String)

/-- External collaborators of one call: the middleware stack's two hooks
(returning `some e` when the hook throws `e`) and the transport `fetch`
(returning `Except.error e` on a network-level failure). -/
structure FetchEnv where
  beforeFetch : String → RequestInit → Option JsError
  afterFetch : Response → JsonValue → Option JsError
  transport : String → RequestInit → Except JsError Response

/-- Observable events of one call, in execution order: logger calls (the
constructor name records the level), hook invocations, the transport call,
and the body read. -/
inductive Event where
  | logRequestInfo (verb : String) (url : String) : Event
  | logResponseDebug (payload : Option JsonValue) : Event
  | logInvalidJSONDebug (bodyText : String) : Event
  | beforeFetchInvoked : Event
  | transportInvoked : Event
  | bodyReadAttempted : Event
  | afterFetchInvoked : Event

/-- Embedding of the guard
`requestOptions.method === "DELETE" && [202, 204, 200].indexOf(response.status) > -1`. -/
def wasDelete (requestOptions : RequestInit) (response : Response) : Bool :=
  requestOptions.method == some "DELETE" &&
    [202, 204, 200].contains response.status

namespace Request

/-- Embedding of `Request._handleResponse`. Returns the value assigned to
`response.jsonPayload` on success (`none` when the DELETE short-circuit
returns without assigning it), or the thrown error, together with the trace
of observable events. The parse-failure message is the template
`invalid json: ${json}` evaluated with `json` still `undefined` (the
assignment threw), hence the literal `"invalid json: undefined"`. -/
def _handleResponse (env : FetchEnv) (response : Response)
    (requestOptions : RequestInit) :
    Except PipelineError (Option JsonValue) × List Event :=
  if wasDelete requestOptions response then
    (.ok none, [])
  else
    match response.jsonBody with
    | .error e =>
        (.error (.responseError (some response) "invalid json: undefined"
            (some e)),
          [.bodyReadAttempted, .logInvalidJSONDebug response.text])
    | .ok json =>
        match env.afterFetch response json with
        | some e =>
            (.error (.responseError (some response)
                "afterFetch failed; review middleware.afterFetch stack"
                (some e)),
              [.bodyReadAttempted, .afterFetchInvoked])
        | none =>
            if response.status ≥ 500 then
              (.error (.responseError (some response) "Server Error" none),
                [.bodyReadAttempted, .afterFetchInvoked])
            else if response.status ≠ 422 then
              match json.dataProp with
              | .error msg =>
                  (.error (.nativeTypeError msg),
                    [.bodyReadAttempted, .afterFetchInvoked])
              | .ok none =>
                  if response.status = 404 then
                    (.error (.responseError (some response)
                        "record not found" none),
                      [.bodyReadAttempted, .afterFetchInvoked])
                  else
                    (.error (.responseError (some response) "invalid json"
                        none),
                      [.bodyReadAttempted, .afterFetchInvoked,
                        .logInvalidJSONDebug response.text])
              | .ok (some _) =>
                  (.ok (some json), [.bodyReadAttempted, .afterFetchInvoked])
            else
              (.ok (some json), [.bodyReadAttempted, .afterFetchInvoked])

end Request

/-- Result of a resolving call: the transport's response together with the
`jsonPayload` field attached to it (`none` when the DELETE short-circuit
left it unset). -/
structure FetchResult where
  response : Response
  jsonPayload : Option JsonValue

namespace Request

/-- Embedding of `Request._fetch`: `beforeFetch` hook, transport call,
response handling, and decoration of the response with the payload computed
by `_handleResponse`. -/
def _fetch (env : FetchEnv) (url : String) (options : RequestInit) :
    Except PipelineError FetchResult × List Event :=
  match env.beforeFetch url options with
  | some e =>
      (.error (.requestError
          "beforeFetch failed; review middleware.beforeFetch stack"
          url options e),
        [.beforeFetchInvoked])
  | none =>
      match env.transport url options with
      | .error e =>
          (.error (.responseError none e.message (some e)),
            [.beforeFetchInvoked, .transportInvoked])
      | .ok response =>
          match _handleResponse env response options with
          | (.error err, evs) =>
              (.error err, .beforeFetchInvoked :: .transportInvoked :: evs)
          | (.ok payload, evs) =>
              (.ok ⟨response, payload⟩,
                .beforeFetchInvoked :: .transportInvoked :: evs)

/-- Embedding of the JavaScript default `options.method || "UNDEFINED METHOD"`
(`||` also replaces the falsy empty string). -/
def methodOrDefault (m : Option String) : String :=
  match m with
  | none => "UNDEFINED METHOD"
  | some "" => "UNDEFINED METHOD"
  | some v => v

/-- Embedding of `Request._fetchWithLogging`: logs the outbound verb and URL
at info level, performs `_fetch`, and on success logs the resulting payload
at debug level. -/
def _fetchWithLogging (env : FetchEnv) (url : String)
    (options : RequestInit) :
    Except PipelineError FetchResult × List Event :=
  let logEv := Event.logRequestInfo (methodOrDefault options.method) url
  match _fetch env url options with
  | (.error e, evs) => (.error e, logEv :: evs)
  | (.ok res, evs) =>
      (.ok res, logEv :: evs ++ [.logResponseDebug res.jsonPayload])

/-- Embedding of `Request.get`: writes `method = "GET"` onto the
caller-supplied options object (returned first, modelling the in-place
mutation) and delegates to `_fetchWithLogging`. -/
def get (env : FetchEnv) (url : String) (options : RequestInit) :
    RequestInit × (Except PipelineError FetchResult × List Event) :=
  let options := { options with method := some "GET" }
  (options, _fetchWithLogging env url options)

/-- Embedding of `Request.post`: writes `method = "POST"` and
`body = JSON.stringify(payload)` onto the caller-supplied options object and
delegates to `_fetchWithLogging`. -/
def post (env : FetchEnv) (url : String) (payload : JsonValue)
    (options : RequestInit) :
    RequestInit × (Except PipelineError FetchResult × List Event) :=
  let options :=
    { options with method := some "POST", body := some payload.stringify }
  (options, _fetchWithLogging env url options)

/-- Embedding of `Request.patch`: writes `method = "PATCH"` and
`body = JSON.stringify(payload)` onto the caller-supplied options object and
delegates to `_fetchWithLogging`. -/
def patch (env : FetchEnv) (url : String) (payload : JsonValue)
    (options : RequestInit) :
    RequestInit × (Except PipelineError FetchResult × List Event) :=
  let options :=
    { options with method := some "PATCH", body := some payload.stringify }
  (options, _fetchWithLogging env url options)

/-- Embedding of `Request.delete`: writes `method = "DELETE"` onto the
caller-supplied options object and delegates to `_fetchWithLogging`. -/
def delete (env : FetchEnv) (url : String) (options : RequestInit) :
    RequestInit × (Except PipelineError FetchResult × List Event) :=
  let options := { options with method := some "DELETE" }
  (options, _fetchWithLogging env url options)

end Request

theorem wasDelete_true (options : RequestInit) (response : Response)
    (hm : options.method = some "DELETE")
    (hs : response.status = 200 ∨ response.status = 202 ∨
      response.status = 204) :
    wasDelete options response = true := by
  have hb : [202, 204, 200].contains response.status = true := by
    simp
    omega
  unfold wasDelete
  rw [hm, hb]
  rfl

theorem wasDelete_false_status (options : RequestInit) (response : Response)
    (hs : response.status ≠ 200 ∧ response.status ≠ 202 ∧
      response.status ≠ 204) :
    wasDelete options response = false := by
  have hb : [202, 204, 200].contains response.status = false := by
    simp
    omega
  unfold wasDelete
  rw [hb, Bool.and_false]

/-- C1: when the `beforeFetch` middleware hook raises, `_fetch` throws a
`RequestError` carrying the fixed diagnostic message, the URL, the options
and the original error, and the transport is never invoked. -/
theorem c1_beforeFetch_failure_blocks_transport
    (env : FetchEnv) (url : String) (options : RequestInit) (e : JsError)
    (h : env.beforeFetch url options = some e) :
    Request._fetch env url options =
      (.error (.requestError
          "beforeFetch failed; review middleware.beforeFetch stack"
          url options e),
        [.beforeFetchInvoked]) ∧
      Event.transportInvoked ∉ (Request._fetch env url options).2 := by
  constructor
  · simp [Request._fetch, h]
  · simp [Request._fetch, h]

def c1Env : FetchEnv where
  beforeFetch := fun _ _ => some ⟨"boom"⟩
  afterFetch := fun _ _ => none
  transport := fun _ _ => .error ⟨"network down"⟩

/-- Witness for C1: a middleware stack whose `beforeFetch` always throws. -/
theorem c1_witness :
    c1Env.beforeFetch "/people" ({} : RequestInit) = some ⟨"boom"⟩ ∧
      (Request._fetch c1Env "/people" ({} : RequestInit) =
        (.error (.requestError
            "beforeFetch failed; review middleware.beforeFetch stack"
            "/people" ({} : RequestInit) ⟨"boom"⟩),
          [.beforeFetchInvoked]) ∧
        Event.transportInvoked ∉
          (Request._fetch c1Env "/people" ({} : RequestInit)).2) :=
  ⟨rfl, c1_beforeFetch_failure_blocks_transport c1Env "/people" {} ⟨"boom"⟩ rfl⟩

/-- C4: a DELETE call whose response status is 200, 202 or 204 succeeds
immediately with no body read and no payload attached, whatever the body
read would have produced (in particular when it would fail). -/
theorem c4_delete_short_circuit_no_body_read
    (env : FetchEnv) (response : Response) (options : RequestInit)
    (hm : options.method = some "DELETE")
    (hs : response.status = 200 ∨ response.status = 202 ∨
      response.status = 204) :
    Request._handleResponse env response options = (.ok none, []) ∧
      Event.bodyReadAttempted ∉
        (Request._handleResponse env response options).2 := by
  have hw := wasDelete_true options response hm hs
  constructor
  · simp [Request._handleResponse, hw]
  · simp [Request._handleResponse, hw]

def c4Response : Response :=
  { status := 204, jsonBody := .error ⟨"body read always fails"⟩ }

def c4Options : RequestInit := { method := some "DELETE" }

def c4Env : FetchEnv where
  beforeFetch := fun _ _ => none
  afterFetch := fun _ _ => none
  transport := fun _ _ => .ok c4Response

/-- Witness for C4: a DELETE call at status 204 against a transport whose
body read always fails. -/
theorem c4_witness :
    c4Options.method = some "DELETE" ∧
      (c4Response.status = 200 ∨ c4Response.status = 202 ∨
        c4Response.status = 204) ∧
      (Request._handleResponse c4Env c4Response c4Options = (.ok none, []) ∧
        Event.bodyReadAttempted ∉
          (Request._handleResponse c4Env c4Response c4Options).2) :=
  ⟨rfl, Or.inr (Or.inr rfl),
    c4_delete_short_circuit_no_body_read c4Env c4Response c4Options rfl
      (Or.inr (Or.inr rfl))⟩

/-- C5: when the body parses, `afterFetch` does not raise and the status is
at least 500, `_handleResponse` throws a `ResponseError` with message
"Server Error" (the DELETE short-circuit cannot apply at these statuses,
and the data-presence check is never reached, whatever the parsed body). -/
theorem c5_server_error
    (env : FetchEnv) (response : Response) (options : RequestInit)
    (json : JsonValue)
    (hb : response.jsonBody = .ok json)
    (ha : env.afterFetch response json = none)
    (hs : 500 ≤ response.status) :
    Request._handleResponse env response options =
      (.error (.responseError (some response) "Server Error" none),
        [.bodyReadAttempted, .afterFetchInvoked]) := by
  have hw : wasDelete options response = false :=
    wasDelete_false_status options response (by omega)
  simp [Request._handleResponse, hw, hb, ha, hs]

def c5Json : JsonValue := .obj [("data", .arr [])]

def c5Response : Response :=
  { status := 503, jsonBody := .ok c5Json, text := "\x7b\"data\":[]\x7d" }

def c5Env : FetchEnv where
  beforeFetch := fun _ _ => none
  afterFetch := fun _ _ => none
  transport := fun _ _ => .ok c5Response

/-- Witness for C5: status 503 with a valid JSON body that does contain a
top-level `data` field. -/
theorem c5_witness :
    c5Response.jsonBody = .ok c5Json ∧
      c5Env.afterFetch c5Response c5Json = none ∧
      500 ≤ c5Response.status ∧
      Request._handleResponse c5Env c5Response ({} : RequestInit) =
        (.error (.responseError (some c5Response) "Server Error" none),
          [.bodyReadAttempted, .afterFetchInvoked]) :=
  ⟨rfl, rfl, by decide,
    c5_server_error c5Env c5Response {} c5Json rfl rfl (by decide)⟩

/-- C6: at status exactly 422 (never a DELETE short-circuit status), when
the body parses and `afterFetch` does not raise, classification succeeds and
the parsed body is attached as the payload, whatever its shape (the
data-presence check is bypassed). -/
theorem c6_422_bypasses_data_check
    (env : FetchEnv) (response : Response) (options : RequestInit)
    (json : JsonValue)
    (hs : response.status = 422)
    (hb : response.jsonBody = .ok json)
    (ha : env.afterFetch response json = none) :
    Request._handleResponse env response options =
      (.ok (some json), [.bodyReadAttempted, .afterFetchInvoked]) := by
  have hw : wasDelete options response = false :=
    wasDelete_false_status options response (by omega)
  simp [Request._handleResponse, hw, hb, ha, hs]

def c6Json : JsonValue :=
  .obj [("errors", .arr [.obj [("title", .str "Invalid")]])]

def c6Response : Response :=
  { status := 422
    jsonBody := .ok c6Json
    text := "\x7b\"errors\":[\x7b\"title\":\"Invalid\"\x7d]\x7d" }

def c6Env : FetchEnv where
  beforeFetch := fun _ _ => none
  afterFetch := fun _ _ => none
  transport := fun _ _ => .ok c6Response

/-- Witness for C6: the spec's concrete scenario, status 422 with body
`{"errors":[{"title":"Invalid"}]}`; the call succeeds and the decorated
payload equals that object. -/
theorem c6_witness :
    c6Response.status = 422 ∧
      c6Response.jsonBody = .ok c6Json ∧
      c6Env.afterFetch c6Response c6Json = none ∧
      Request._handleResponse c6Env c6Response ({} : RequestInit) =
        (.ok (some c6Json), [.bodyReadAttempted, .afterFetchInvoked]) :=
  ⟨rfl, rfl, rfl,
    c6_422_bypasses_data_check c6Env c6Response {} c6Json rfl rfl rfl⟩

/-- C7: when the DELETE short-circuit does not apply and the body read
fails, `_handleResponse` throws a `ResponseError` whose message is
`"invalid json: undefined"` (the template `invalid json: ${json}` with
`json` still unassigned), which begins with "invalid json:" (stated as a
concatenation), wrapping the
parse error, and the trace records the debug-level invalid-JSON log of the
response's raw text before the error is thrown. -/
theorem c7_parse_failure_invalid_json
    (env : FetchEnv) (response : Response) (options : RequestInit)
    (e : JsError)
    (hw : wasDelete options response = false)
    (hb : response.jsonBody = .error e) :
    Request._handleResponse env response options =
      (.error (.responseError (some response) "invalid json: undefined"
          (some e)),
        [.bodyReadAttempted, .logInvalidJSONDebug response.text]) ∧
      "invalid json: undefined" = "invalid json:" ++ " undefined" ∧
      Event.logInvalidJSONDebug response.text ∈
        (Request._handleResponse env response options).2 := by
  refine ⟨by simp [Request._handleResponse, hw, hb], by rfl, ?_⟩
  simp [Request._handleResponse, hw, hb]

def c7Response : Response :=
  { status := 200, jsonBody := .error ⟨"Unexpected token < in JSON"⟩
    text := "<!DOCTYPE html>" }

def c7Env : FetchEnv where
  beforeFetch := fun _ _ => none
  afterFetch := fun _ _ => none
  transport := fun _ _ => .ok c7Response

/-- Witness for C7: a GET call whose response body is HTML, not JSON. -/
theorem c7_witness :
    wasDelete ({ method := some "GET" } : RequestInit) c7Response = false ∧
      c7Response.jsonBody = .error ⟨"Unexpected token < in JSON"⟩ ∧
      (Request._handleResponse c7Env c7Response
          ({ method := some "GET" } : RequestInit) =
        (.error (.responseError (some c7Response) "invalid json: undefined"
            (some ⟨"Unexpected token < in JSON"⟩)),
          [.bodyReadAttempted, .logInvalidJSONDebug c7Response.text]) ∧
        "invalid json: undefined" = "invalid json:" ++ " undefined" ∧
        Event.logInvalidJSONDebug c7Response.text ∈
          (Request._handleResponse c7Env c7Response
            ({ method := some "GET" } : RequestInit)).2) :=
  ⟨rfl, rfl,
    c7_parse_failure_invalid_json c7Env c7Response { method := some "GET" }
      ⟨"Unexpected token < in JSON"⟩ rfl rfl⟩

/-- C9: when `beforeFetch` passes and the transport call itself fails,
`_fetch` throws a `ResponseError` whose response is `null`, whose message is
the transport error's own message, and which wraps the transport's error. -/
theorem c9_network_failure
    (env : FetchEnv) (url : String) (options : RequestInit) (e : JsError)
    (hbf : env.beforeFetch url options = none)
    (ht : env.transport url options = .error e) :
    Request._fetch env url options =
      (.error (.responseError none e.message (some e)),
        [.beforeFetchInvoked, .transportInvoked]) := by
  simp [Request._fetch, hbf, ht]

def c9Env : FetchEnv where
  beforeFetch := fun _ _ => none
  afterFetch := fun _ _ => none
  transport := fun _ _ => .error ⟨"getaddrinfo ENOTFOUND api.example.com"⟩

/-- Witness for C9: a transport that fails at the network level. -/
theorem c9_witness :
    c9Env.beforeFetch "/people" ({} : RequestInit) = none ∧
      c9Env.transport "/people" ({} : RequestInit) =
        .error ⟨"getaddrinfo ENOTFOUND api.example.com"⟩ ∧
      Request._fetch c9Env "/people" ({} : RequestInit) =
        (.error (.responseError none
            "getaddrinfo ENOTFOUND api.example.com"
            (some ⟨"getaddrinfo ENOTFOUND api.example.com"⟩)),
          [.beforeFetchInvoked, .transportInvoked]) :=
  ⟨rfl, rfl,
    c9_network_failure c9Env "/people" {}
      ⟨"getaddrinfo ENOTFOUND api.example.com"⟩ rfl rfl⟩

/-- C10: for a DELETE call whose response status is 200, 202 or 204, the
`afterFetch` hook is never invoked: the trace records no `afterFetch`
invocation, and replacing `afterFetch` by any other hook leaves the outcome
unchanged. -/
theorem c10_delete_short_circuit_skips_afterFetch
    (env : FetchEnv) (g : Response → JsonValue → Option JsError)
    (response : Response) (options : RequestInit)
    (hm : options.method = some "DELETE")
    (hs : response.status = 200 ∨ response.status = 202 ∨
      response.status = 204) :
    Event.afterFetchInvoked ∉
        (Request._handleResponse env response options).2 ∧
      Request._handleResponse { env with afterFetch := g } response options =
        Request._handleResponse env response options := by
  have hw := wasDelete_true options response hm hs
  constructor
  · simp [Request._handleResponse, hw]
  · simp [Request._handleResponse, hw]

def c10Response : Response :=
  { status := 200, jsonBody := .ok (.obj [("data", .null)]) }

def c10Options10 : RequestInit := { method := some "DELETE" }

def c10Env : FetchEnv where
  beforeFetch := fun _ _ => none
  afterFetch := fun _ _ => none
  transport := fun _ _ => .ok c10Response

/-- Witness for C10: a DELETE call at status 200; swapping in an `afterFetch`
hook that always throws changes nothing. -/
theorem c10_witness :
    c10Options10.method = some "DELETE" ∧
      (c10Response.status = 200 ∨ c10Response.status = 202 ∨
        c10Response.status = 204) ∧
      (Event.afterFetchInvoked ∉
          (Request._handleResponse c10Env c10Response c10Options10).2 ∧
        Request._handleResponse
            { c10Env with afterFetch := fun _ _ => some ⟨"rejected"⟩ }
            c10Response c10Options10 =
          Request._handleResponse c10Env c10Response c10Options10) :=
  ⟨rfl, Or.inl rfl,
    c10_delete_short_circuit_skips_afterFetch c10Env
      (fun _ _ => some ⟨"rejected"⟩) c10Response c10Options10 rfl
      (Or.inl rfl)⟩

/-- C8: each verb method mutates the caller-supplied options in place:
`get`/`delete` set only `method` (to "GET"/"DELETE"); `post`/`patch` set
`method` (to "POST"/"PATCH") and `body` (to the JSON serialization of the
payload); every other field (`headers`, `credentials`, and `body` for
`get`/`delete`) is left unchanged. -/
theorem c8_verb_methods_mutate_options
    (env : FetchEnv) (url : String) (payload : JsonValue)
    (options : RequestInit) :
    ((Request.get env url options).1.method = some "GET" ∧
      (Request.get env url options).1.body = options.body ∧
      (Request.get env url options).1.headers = options.headers ∧
      (Request.get env url options).1.credentials = options.credentials) ∧
    ((Request.delete env url options).1.method = some "DELETE" ∧
      (Request.delete env url options).1.body = options.body ∧
      (Request.delete env url options).1.headers = options.headers ∧
      (Request.delete env url options).1.credentials = options.credentials) ∧
    ((Request.post env url payload options).1.method = some "POST" ∧
      (Request.post env url payload options).1.body =
        some payload.stringify ∧
      (Request.post env url payload options).1.headers = options.headers ∧
      (Request.post env url payload options).1.credentials =
        options.credentials) ∧
    ((Request.patch env url payload options).1.method = some "PATCH" ∧
      (Request.patch env url payload options).1.body =
        some payload.stringify ∧
      (Request.patch env url payload options).1.headers = options.headers ∧
      (Request.patch env url payload options).1.credentials =
        options.credentials) :=
  ⟨⟨rfl, rfl, rfl, rfl⟩, ⟨rfl, rfl, rfl, rfl⟩, ⟨rfl, rfl, rfl, rfl⟩,
    ⟨rfl, rfl, rfl, rfl⟩⟩

def c2Response : Response :=
  { status := 204, jsonBody := .error ⟨"body read always fails"⟩ }

def c2Env : FetchEnv where
  beforeFetch := fun _ _ => none
  afterFetch := fun _ _ => none
  transport := fun _ _ => .ok c2Response

/-- C2 is false as stated: this DELETE call at status 204 resolves
successfully, yet its `jsonPayload` field is left unset (`none`) — it cannot
equal a parse of the body, whose read in fact fails. -/
theorem c2_counterexample :
    (Request.delete c2Env "/people/1" ({} : RequestInit)).2.1 =
      .ok ⟨c2Response, none⟩ ∧
      c2Response.jsonBody = .error ⟨"body read always fails"⟩ :=
  ⟨rfl, rfl⟩

theorem handleResponse_ok_payload
    (env : FetchEnv) (response : Response) (options : RequestInit)
    (payload : Option JsonValue) (evs : List Event)
    (hw : wasDelete options response = false)
    (h : Request._handleResponse env response options = (.ok payload, evs)) :
    ∃ json, response.jsonBody = .ok json ∧ payload = some json := by
  unfold Request._handleResponse at h
  rw [hw] at h
  rw [if_neg Bool.false_ne_true] at h
  cases hb : response.jsonBody with
  | error e =>
      rw [hb] at h
      exact absurd h (by simp)
  | ok json =>
      rw [hb] at h
      dsimp only at h
      cases ha : env.afterFetch response json with
      | some e =>
          rw [ha] at h
          exact absurd h (by simp)
      | none =>
          rw [ha] at h
          dsimp only at h
          by_cases h5 : response.status ≥ 500
          · rw [if_pos h5] at h
            exact absurd h (by simp)
          · rw [if_neg h5] at h
            by_cases h4 : response.status = 422
            · rw [if_neg (not_not_intro h4)] at h
              refine ⟨json, rfl, ?_⟩
              have hfst := congrArg Prod.fst h
              simpa using hfst.symm
            · rw [if_pos h4] at h
              cases hd : json.dataProp with
              | error m =>
                  rw [hd] at h
                  exact absurd h (by simp)
              | ok o =>
                  rw [hd] at h
                  cases o with
                  | none =>
                      dsimp only at h
                      by_cases h404 : response.status = 404
                      · rw [if_pos h404] at h
                        exact absurd h (by simp)
                      · rw [if_neg h404] at h
                        exact absurd h (by simp)
                  | some v =>
                      dsimp only at h
                      refine ⟨json, rfl, ?_⟩
                      have hfst := congrArg Prod.fst h
                      simpa using hfst.symm

/-- C2 (amended): for every call that resolves and to which the DELETE
short-circuit did not apply, the result carries under `jsonPayload` exactly
the value produced by the JSON-decoding read of the response body. -/
theorem c2_success_payload_decodes_body
    (env : FetchEnv) (url : String) (options : RequestInit)
    (res : FetchResult)
    (h : (Request._fetch env url options).1 = .ok res)
    (hw : wasDelete options res.response = false) :
    ∃ json, res.response.jsonBody = .ok json ∧
      res.jsonPayload = some json := by
  unfold Request._fetch at h
  cases hbf : env.beforeFetch url options with
  | some e =>
      rw [hbf] at h
      exact absurd h (by simp)
  | none =>
      rw [hbf] at h
      dsimp only at h
      cases ht : env.transport url options with
      | error e =>
          rw [ht] at h
          exact absurd h (by simp)
      | ok response =>
          rw [ht] at h
          dsimp only at h
          cases hh : Request._handleResponse env response options with
          | mk r evs =>
              rw [hh] at h
              cases r with
              | error err => exact absurd h (by simp)
              | ok payload =>
                  simp only [Except.ok.injEq] at h
                  subst h
                  exact handleResponse_ok_payload env response options
                    payload evs hw hh

def c2aJson : JsonValue := .obj [("data", .arr [])]

def c2aResponse : Response :=
  { status := 200, jsonBody := .ok c2aJson, text := "\x7b\"data\":[]\x7d" }

def c2aEnv : FetchEnv where
  beforeFetch := fun _ _ => none
  afterFetch := fun _ _ => none
  transport := fun _ _ => .ok c2aResponse

/-- Witness for the amended C2: a plain GET at status 200 whose payload is
exactly the decoded body. -/
theorem c2_witness :
    (Request._fetch c2aEnv "/people" ({ method := some "GET" } :
        RequestInit)).1 = .ok ⟨c2aResponse, some c2aJson⟩ ∧
      wasDelete ({ method := some "GET" } : RequestInit)
        (FetchResult.mk c2aResponse (some c2aJson)).response = false ∧
      ∃ json,
        (FetchResult.mk c2aResponse (some c2aJson)).response.jsonBody =
          .ok json ∧
        (FetchResult.mk c2aResponse (some c2aJson)).jsonPayload =
          some json :=
  ⟨rfl, rfl,
    c2_success_payload_decodes_body c2aEnv "/people"
      { method := some "GET" } ⟨c2aResponse, some c2aJson⟩ rfl rfl⟩

def c3Json : JsonValue := .obj [("data", .arr [])]

def c3Response : Response :=
  { status := 404, jsonBody := .ok c3Json, text := "\x7b\"data\":[]\x7d" }

def c3Env : FetchEnv where
  beforeFetch := fun _ _ => none
  afterFetch := fun _ _ => none
  transport := fun _ _ => .ok c3Response

/-- C3 is false as stated: a GET whose response has status 404 and body
`{"data":[]}` resolves successfully with that body attached as the payload —
no "record not found" error is raised, because the 404 check is guarded by
the body lacking a top-level `data` field. -/
theorem c3_counterexample :
    (Request.get c3Env "/people/9" ({} : RequestInit)).2.1 =
      .ok ⟨c3Response, some c3Json⟩ ∧
      (Request.get c3Env "/people/9" ({} : RequestInit)).2.1 ≠
        .error (.responseError (some c3Response) "record not found"
          none) := by
  have h1 : (Request.get c3Env "/people/9" ({} : RequestInit)).2.1 =
      .ok ⟨c3Response, some c3Json⟩ := rfl
  refine ⟨h1, ?_⟩
  rw [h1]
  simp

/-- C3 (amended): for every call whose response has status 404, whose body
parses to a value lacking a top-level `data` field, and whose `afterFetch`
hook does not raise, a `ResponseError` with message "record not found" is
thrown. -/
theorem c3_404_without_data_not_found
    (env : FetchEnv) (response : Response) (options : RequestInit)
    (json : JsonValue)
    (hs : response.status = 404)
    (hb : response.jsonBody = .ok json)
    (ha : env.afterFetch response json = none)
    (hd : json.dataProp = .ok none) :
    Request._handleResponse env response options =
      (.error (.responseError (some response) "record not found" none),
        [.bodyReadAttempted, .afterFetchInvoked]) := by
  have hw : wasDelete options response = false :=
    wasDelete_false_status options response (by omega)
  simp [Request._handleResponse, hw, hb, ha, hs, hd]

def c3aJson : JsonValue := .obj [("errors", .arr [])]

def c3aResponse : Response :=
  { status := 404, jsonBody := .ok c3aJson, text := "\x7b\"errors\":[]\x7d" }

def c3aEnv : FetchEnv where
  beforeFetch := fun _ _ => none
  afterFetch := fun _ _ => none
  transport := fun _ _ => .ok c3aResponse

/-- Witness for the amended C3: status 404 with body `{"errors":[]}`. -/
theorem c3_witness :
    c3aResponse.status = 404 ∧
      c3aResponse.jsonBody = .ok c3aJson ∧
      c3aEnv.afterFetch c3aResponse c3aJson = none ∧
      c3aJson.dataProp = .ok none ∧
      Request._handleResponse c3aEnv c3aResponse ({} : RequestInit) =
        (.error (.responseError (some c3aResponse) "record not found" none),
          [.bodyReadAttempted, .afterFetchInvoked]) :=
  ⟨rfl, rfl, rfl, rfl,
    c3_404_without_data_not_found c3aEnv c3aResponse {} c3aJson rfl rfl rfl
      rfl⟩
